import Mathlib

/-!
Shallow embedding of the llm_eval frontend's workflow-store, guard, polling,
SSE and service logic, with theorems settling the frozen claims.

Modelling conventions for the TypeScript source:
* A TS value that may be `undefined` (an optional key, or a key explicitly
  assigned `undefined`) is modelled as `Option α` with `none` for
  `undefined`/missing.  `JSON.stringify` drops `undefined`-valued keys and
  `JSON.parse` never produces `undefined`, so after a stringify/parse
  round-trip "key missing" and "key present with value undefined" coincide;
  property access on a missing key yields `undefined` in JS, which is why the
  conflation is faithful.
* A TS field typed `string | null` that may also be absent is modelled by the
  three-valued `StrVal` (undefined / null / string), since `null` survives
  `JSON.stringify` while `undefined` does not.
* JS object spread `{ ...base, ...patch }` is modelled field-wise: a key takes
  the patch's value when the patch has it, otherwise the base's value.
* `Record<string, T>` objects mutated by key are modelled as association
  lists `List (String × T)`; JS objects preserve insertion order, an update
  of an existing key keeps its position and a new key is appended, which is
  exactly `setAssoc` below.
-/

namespace LlmEval

/-- JS string-or-null-or-undefined value (for fields typed `string | null`
with an optional key, e.g. `message?: string | null`). -/
inductive StrVal where
  | undef : StrVal
  | null : StrVal
  | str (s : String) : StrVal
deriving DecidableEq, Repr

/-- Field-wise JS spread for an optional-valued key: the patch value if the
key is present in the patch, otherwise the base value.  Also models `a ?? b`
when `a` is an optional field access. -/
def spreadKey {α : Type} : Option α → Option α → Option α
  | some v, _ => some v
  | none, d => d

theorem spreadKey_none {α : Type} (p : Option α) : spreadKey p none = p := by
  cases p <;> rfl

/-- Lookup in an association list (JS `obj[key]`, `undefined` when absent). -/
def lookupAssoc {α : Type} : List (String × α) → String → Option α
  | [], _ => none
  | (k, v) :: rest, key => if k = key then some v else lookupAssoc rest key

/-- Assignment `obj[key] = v` on a JS object modelled as an association list:
an existing key is updated in place, a new key is appended. -/
def setAssoc {α : Type} : List (String × α) → String → α → List (String × α)
  | [], key, v => [(key, v)]
  | (k, w) :: rest, key, v =>
      if k = key then (key, v) :: rest else (k, w) :: setAssoc rest key v

/-- The keys of a JS object modelled as an association list, in order. -/
def assocKeys {α : Type} (m : List (String × α)) : List String := m.map Prod.fst

theorem assocKeys_setAssoc_of_mem {α : Type} (m : List (String × α)) (k : String)
    (v : α) (h : k ∈ assocKeys m) : assocKeys (setAssoc m k v) = assocKeys m := by
  induction m with
  | nil => simp [assocKeys] at h
  | cons hd tl ih =>
      cases hd with
      | mk k0 v0 =>
          by_cases hk : k0 = k
          · simp only [setAssoc, if_pos hk, assocKeys, List.map_cons]
            rw [hk]
          · simp only [assocKeys, List.map_cons, List.mem_cons] at h
            rcases h with h | h
            · exact absurd h.symm hk
            · simp only [setAssoc, if_neg hk, assocKeys, List.map_cons]
              have := ih h
              simp only [assocKeys] at this
              rw [this]

-- ============================================================
-- src/frontend/src/theme.config.ts (workflowStore): data model
-- ============================================================

/-- `const STORAGE_KEY = 'llm_eval_workflow_state'` (theme.config.ts line 144). -/
def STORAGE_KEY : String := "llm_eval_workflow_state"

/-- `type EvaluationStageKey = 'init' | 'stage1' | 'stage2' | 'result'`. -/
inductive EvaluationStageKey where
  | init | stage1 | stage2 | result
deriving DecidableEq, Repr

/-- The runtime string of an `EvaluationStageKey`. -/
def stageKeyStr : EvaluationStageKey → String
  | .init => "init"
  | .stage1 => "stage1"
  | .stage2 => "stage2"
  | .result => "result"

/-- `WorkflowStageSnapshot.status` union. -/
inductive StageStatus where
  | pending | active | completed | failed | disabled
deriving DecidableEq, Repr

/-- `interface WorkflowStageSnapshot` (theme.config.ts lines 148-156).  The
`key` field is kept as a string, its runtime representation. -/
structure WorkflowStageSnapshot where
  key : String
  label : String
  progress : Int
  status : StageStatus
  enabled : Bool
  message : StrVal
  updatedAt : StrVal
deriving DecidableEq, Repr

/-- `Partial<WorkflowStageSnapshot>`: every key optional. -/
structure StageSnapshotPatch where
  key : Option String := none
  label : Option String := none
  progress : Option Int := none
  status : Option StageStatus := none
  enabled : Option Bool := none
  message : Option StrVal := none
  updatedAt : Option StrVal := none
deriving DecidableEq, Repr

/-- Spread `{ ...base, ...patch }` for stage snapshots. -/
def mergeSnapshot (base : WorkflowStageSnapshot) (p : StageSnapshotPatch) :
    WorkflowStageSnapshot :=
  { key := p.key.getD base.key
    label := p.label.getD base.label
    progress := p.progress.getD base.progress
    status := p.status.getD base.status
    enabled := p.enabled.getD base.enabled
    message := p.message.getD base.message
    updatedAt := p.updatedAt.getD base.updatedAt }

/-- `interface EvaluationParamsState` (theme.config.ts lines 158-164). -/
structure EvaluationParamsState where
  stage1_answer_threshold : Int
  stage1_reasoning_threshold : Int
  stage2_answer_threshold : Int
  stage2_reasoning_threshold : Int
  evaluation_rounds : Int
deriving DecidableEq, Repr

/-- `Partial<EvaluationParamsState>`. -/
structure EvaluationParamsPatch where
  stage1_answer_threshold : Option Int := none
  stage1_reasoning_threshold : Option Int := none
  stage2_answer_threshold : Option Int := none
  stage2_reasoning_threshold : Option Int := none
  evaluation_rounds : Option Int := none
deriving DecidableEq, Repr

/-- Spread `{ ...base, ...patch }` for evaluation params. -/
def mergeEvaluationParams (base : EvaluationParamsState) (p : EvaluationParamsPatch) :
    EvaluationParamsState :=
  { stage1_answer_threshold := p.stage1_answer_threshold.getD base.stage1_answer_threshold
    stage1_reasoning_threshold := p.stage1_reasoning_threshold.getD base.stage1_reasoning_threshold
    stage2_answer_threshold := p.stage2_answer_threshold.getD base.stage2_answer_threshold
    stage2_reasoning_threshold := p.stage2_reasoning_threshold.getD base.stage2_reasoning_threshold
    evaluation_rounds := p.evaluation_rounds.getD base.evaluation_rounds }

/-- `interface QAParamsState` (theme.config.ts lines 166-180). -/
structure QAParamsState where
  numPairs : Int
  useSuggested : Bool
  includeReason : Bool
  minDensityScore : Int
  minQualityScore : Int
  skipExtract : Bool
  skipEvaluate : Bool
  skipQA : Bool
  skipQAEvaluate : Bool
  enableQAEvaluation : Bool
  minFactualScore : Int
  minOverallScore : Int
  samplePercentage : Int
deriving DecidableEq, Repr

/-- `Partial<QAParamsState>`. -/
structure QAParamsPatch where
  numPairs : Option Int := none
  useSuggested : Option Bool := none
  includeReason : Option Bool := none
  minDensityScore : Option Int := none
  minQualityScore : Option Int := none
  skipExtract : Option Bool := none
  skipEvaluate : Option Bool := none
  skipQA : Option Bool := none
  skipQAEvaluate : Option Bool := none
  enableQAEvaluation : Option Bool := none
  minFactualScore : Option Int := none
  minOverallScore : Option Int := none
  samplePercentage : Option Int := none
deriving DecidableEq, Repr

/-- Spread `{ ...base, ...patch }` for QA params. -/
def mergeQAParams (base : QAParamsState) (p : QAParamsPatch) : QAParamsState :=
  { numPairs := p.numPairs.getD base.numPairs
    useSuggested := p.useSuggested.getD base.useSuggested
    includeReason := p.includeReason.getD base.includeReason
    minDensityScore := p.minDensityScore.getD base.minDensityScore
    minQualityScore := p.minQualityScore.getD base.minQualityScore
    skipExtract := p.skipExtract.getD base.skipExtract
    skipEvaluate := p.skipEvaluate.getD base.skipEvaluate
    skipQA := p.skipQA.getD base.skipQA
    skipQAEvaluate := p.skipQAEvaluate.getD base.skipQAEvaluate
    enableQAEvaluation := p.enableQAEvaluation.getD base.enableQAEvaluation
    minFactualScore := p.minFactualScore.getD base.minFactualScore
    minOverallScore := p.minOverallScore.getD base.minOverallScore
    samplePercentage := p.samplePercentage.getD base.samplePercentage }

/-- `const defaultEvaluationParams` (theme.config.ts lines 182-188). -/
def defaultEvaluationParams : EvaluationParamsState :=
  { stage1_answer_threshold := 60
    stage1_reasoning_threshold := 60
    stage2_answer_threshold := 60
    stage2_reasoning_threshold := 60
    evaluation_rounds := 1 }

/-- `const defaultQAParams` (theme.config.ts lines 190-204). -/
def defaultQAParams : QAParamsState :=
  { numPairs := 5
    useSuggested := false
    includeReason := true
    minDensityScore := 5
    minQualityScore := 5
    skipExtract := false
    skipEvaluate := false
    skipQA := false
    skipQAEvaluate := false
    enableQAEvaluation := true
    minFactualScore := 7
    minOverallScore := 7
    samplePercentage := 100 }

/-- The default snapshot of one evaluation stage (theme.config.ts
lines 206-211, one entry of `createDefaultEvaluationStages`). -/
def defaultStage : EvaluationStageKey → WorkflowStageSnapshot
  | .init =>
      { key := "init", label := "初始化", progress := 0, status := .active,
        enabled := true, message := .null, updatedAt := .undef }
  | .stage1 =>
      { key := "stage1", label := "第一阶段评估", progress := 0, status := .pending,
        enabled := true, message := .null, updatedAt := .undef }
  | .stage2 =>
      { key := "stage2", label := "第二阶段评估", progress := 0, status := .pending,
        enabled := true, message := .null, updatedAt := .undef }
  | .result =>
      { key := "result", label := "结果处理", progress := 0, status := .pending,
        enabled := true, message := .null, updatedAt := .undef }

/-- A `Record<EvaluationStageKey, WorkflowStageSnapshot>` at runtime: a JS
object from stage-key strings to snapshots. -/
abbrev StagesMap := List (String × WorkflowStageSnapshot)

/-- `createDefaultEvaluationStages` (theme.config.ts lines 206-211). -/
def createDefaultEvaluationStages : StagesMap :=
  [("init", defaultStage .init), ("stage1", defaultStage .stage1),
   ("stage2", defaultStage .stage2), ("result", defaultStage .result)]

/-- `WorkflowState.flmm` (theme.config.ts lines 216-219). -/
structure FlmmState where
  processCompleted : Bool
  projectId : Option String
deriving DecidableEq, Repr

/-- `WorkflowState.qa` (theme.config.ts lines 222-229). -/
structure QAState where
  processCompleted : Bool
  taskId : Option String
  generateTaskId : Option String
  evaluateTaskId : Option String
  step : Option Int
  params : QAParamsState
deriving DecidableEq, Repr

/-- `WorkflowState.evaluation` (theme.config.ts lines 232-237). -/
structure EvaluationState where
  workflowCompleted : Bool
  evaluationId : Option String
  stages : StagesMap
  params : EvaluationParamsState
deriving DecidableEq, Repr

/-- `interface WorkflowState` (theme.config.ts lines 214-238). -/
structure WorkflowState where
  flmm : FlmmState
  qa : QAState
  evaluation : EvaluationState
deriving DecidableEq, Repr

/-- `const defaultState` (theme.config.ts lines 241-255). -/
def defaultState : WorkflowState :=
  { flmm := { processCompleted := false, projectId := none }
    qa := { processCompleted := false, taskId := none, generateTaskId := none,
            evaluateTaskId := none, step := some 0, params := defaultQAParams }
    evaluation := { workflowCompleted := false, evaluationId := none,
                    stages := createDefaultEvaluationStages,
                    params := defaultEvaluationParams } }

-- ============================================================
-- WorkflowStore public access predicates and mutating operations
-- ============================================================

/-- `canAccessFLMMAnalysis` (theme.config.ts lines 359-361). -/
def canAccessFLMMAnalysis (s : WorkflowState) : Bool := s.flmm.processCompleted

/-- `canAccessQAAnalysis` (theme.config.ts lines 399-401). -/
def canAccessQAAnalysis (s : WorkflowState) : Bool := s.qa.processCompleted

/-- `canAccessEvaluationAnalysis` (theme.config.ts lines 420-422). -/
def canAccessEvaluationAnalysis (s : WorkflowState) : Bool :=
  s.evaluation.workflowCompleted

/-- The calls a client can make to the mutating public methods of
`WorkflowStore`, with their arguments. -/
inductive StoreOp where
  | setFLMMProcessCompleted (projectId : Option String)
  | resetFLMM
  | setQAProcessCompleted (taskId : Option String)
  | setQAGenerateTaskId (taskId : String)
  | setQAEvaluateTaskId (taskId : String)
  | setQAStep (step : Int)
  | saveQAParams (p : QAParamsPatch)
  | resetQA
  | setEvaluationWorkflowCompleted (evaluationId : Option String)
  | resetEvaluation
  | saveEvaluationParams (p : EvaluationParamsPatch)
  | updateEvaluationStage (k : EvaluationStageKey) (snap : StageSnapshotPatch)
  | bulkUpdateEvaluationStages (entries : List (String × StageSnapshotPatch))
  | resetEvaluationStages
  | resetAll

/-- `validKeys.includes(key)` in `bulkUpdateEvaluationStages`
(theme.config.ts line 455-457), returning the typed key on success. -/
def toStageKey (k : String) : Option EvaluationStageKey :=
  if k = "init" then some .init
  else if k = "stage1" then some .stage1
  else if k = "stage2" then some .stage2
  else if k = "result" then some .result
  else none

/-- One iteration of the `Object.entries(stageMap).forEach` loop in
`bulkUpdateEvaluationStages` (theme.config.ts lines 456-469): an invalid key
is skipped; a valid key is first default-initialised when absent, then
merged with the snapshot. -/
def bulkStep (stages : StagesMap) (entry : String × StageSnapshotPatch) : StagesMap :=
  match toStageKey entry.1 with
  | none => stages
  | some sk =>
      let cur := (lookupAssoc stages entry.1).getD (defaultStage sk)
      setAssoc stages entry.1 (mergeSnapshot cur entry.2)

/-- The state transition of each mutating `WorkflowStore` method
(theme.config.ts lines 353-493), before the `saveState` persistence step. -/
def applyOp (s : WorkflowState) (op : StoreOp) : WorkflowState :=
  match op with
  | .setFLMMProcessCompleted pid =>
      { s with flmm := { processCompleted := true, projectId := pid } }
  | .resetFLMM =>
      { s with flmm := { processCompleted := false, projectId := none } }
  | .setQAProcessCompleted tid =>
      { s with qa := { s.qa with processCompleted := true, taskId := tid } }
  | .setQAGenerateTaskId tid =>
      { s with qa := { s.qa with generateTaskId := some tid } }
  | .setQAEvaluateTaskId tid =>
      { s with qa := { s.qa with evaluateTaskId := some tid } }
  | .setQAStep n =>
      { s with qa := { s.qa with step := some n } }
  | .saveQAParams p =>
      { s with qa := { s.qa with params := mergeQAParams s.qa.params p } }
  | .resetQA =>
      { s with qa := { processCompleted := false, taskId := none,
                       generateTaskId := none, evaluateTaskId := none,
                       step := none, params := defaultQAParams } }
  | .setEvaluationWorkflowCompleted eid =>
      { s with evaluation :=
          { s.evaluation with workflowCompleted := true, evaluationId := eid } }
  | .resetEvaluation =>
      { s with evaluation := { workflowCompleted := false, evaluationId := none,
                               stages := createDefaultEvaluationStages,
                               params := defaultEvaluationParams } }
  | .saveEvaluationParams p =>
      { s with evaluation :=
          { s.evaluation with
              params := mergeEvaluationParams s.evaluation.params p } }
  | .updateEvaluationStage k snap =>
      let base := (lookupAssoc s.evaluation.stages (stageKeyStr k)).getD (defaultStage k)
      { s with evaluation :=
          { s.evaluation with
              stages := setAssoc s.evaluation.stages (stageKeyStr k)
                          (mergeSnapshot base snap) } }
  | .bulkUpdateEvaluationStages entries =>
      { s with evaluation :=
          { s.evaluation with
              stages := entries.foldl bulkStep s.evaluation.stages } }
  | .resetEvaluationStages =>
      { s with evaluation :=
          { s.evaluation with stages := createDefaultEvaluationStages } }
  | .resetAll =>
      { flmm := defaultState.flmm, qa := defaultState.qa,
        evaluation := { workflowCompleted := false, evaluationId := none,
                        stages := createDefaultEvaluationStages,
                        params := defaultEvaluationParams } }

/-- Sequential application of store operations. -/
def applyOps (s : WorkflowState) (ops : List StoreOp) : WorkflowState :=
  ops.foldl applyOp s

/-- A state reachable from the default state by the store's public
operations. -/
def ReachableState (s : WorkflowState) : Prop :=
  ∃ ops : List StoreOp, applyOps defaultState ops = s

-- ============================================================
-- src/frontend/src/hooks/useWorkflowGuard.ts
-- ============================================================

/-- The observable outcome of one run of the guard effect. -/
structure GuardDecision where
  showsModal : Bool
  redirectsTo : Option String
deriving DecidableEq, Repr

/-- The effect body of `useWorkflowGuard` (useWorkflowGuard.ts lines 28-50):
nothing when the modal was already shown; otherwise, when `canAccess()` is
false, the warning modal is shown and both its ok and cancel actions navigate
to `redirectPath`. -/
def useWorkflowGuardEffect (hasShownModal : Bool) (canAccess : Bool)
    (redirectPath : String) : GuardDecision :=
  if hasShownModal then { showsModal := false, redirectsTo := none }
  else if !canAccess then { showsModal := true, redirectsTo := some redirectPath }
  else { showsModal := false, redirectsTo := none }

/-- C2: each `canAccess` predicate returns exactly its module's completion
flag, and on its initial run (`hasShownModal` starts false via `useRef(false)`)
the guard shows the warning modal and redirects if and only if the `canAccess`
predicate returns false. -/
theorem workflow_gate_correct :
    ∀ (s : WorkflowState) (path : String) (c : Bool),
      canAccessFLMMAnalysis s = s.flmm.processCompleted ∧
      canAccessQAAnalysis s = s.qa.processCompleted ∧
      canAccessEvaluationAnalysis s = s.evaluation.workflowCompleted ∧
      (useWorkflowGuardEffect false c path).showsModal = !c ∧
      (useWorkflowGuardEffect false c path).redirectsTo =
        (if c then none else some path) := by
  intro s path c
  refine ⟨rfl, rfl, rfl, ?_, ?_⟩ <;> cases c <;> rfl

-- ============================================================
-- Persistence: saveState / loadState (theme.config.ts lines 281-337)
-- ============================================================

/-- The result of `JSON.parse(saved)` on a persisted workflow blob, shaped
like a stringified `WorkflowState`: every key may be absent (`none`), since
`JSON.stringify` drops `undefined`-valued keys. -/
structure ParsedFlmm where
  processCompleted : Option Bool := none
  projectId : Option String := none
deriving DecidableEq, Repr

/-- Parsed `qa` section of a persisted blob. -/
structure ParsedQA where
  processCompleted : Option Bool := none
  taskId : Option String := none
  generateTaskId : Option String := none
  evaluateTaskId : Option String := none
  step : Option Int := none
  params : Option QAParamsPatch := none
deriving DecidableEq, Repr

/-- Parsed `evaluation` section of a persisted blob. -/
structure ParsedEvaluation where
  workflowCompleted : Option Bool := none
  evaluationId : Option String := none
  stages : Option StagesMap := none
  params : Option EvaluationParamsPatch := none
deriving DecidableEq, Repr

/-- Parsed top level of a persisted blob. -/
structure ParsedState where
  flmm : Option ParsedFlmm := none
  qa : Option ParsedQA := none
  evaluation : Option ParsedEvaluation := none
deriving DecidableEq, Repr

/-- The all-keys-present patch of a full `QAParamsState`, as produced by
stringifying it. -/
def qaParamsToPatch (p : QAParamsState) : QAParamsPatch :=
  { numPairs := some p.numPairs, useSuggested := some p.useSuggested,
    includeReason := some p.includeReason,
    minDensityScore := some p.minDensityScore,
    minQualityScore := some p.minQualityScore,
    skipExtract := some p.skipExtract, skipEvaluate := some p.skipEvaluate,
    skipQA := some p.skipQA, skipQAEvaluate := some p.skipQAEvaluate,
    enableQAEvaluation := some p.enableQAEvaluation,
    minFactualScore := some p.minFactualScore,
    minOverallScore := some p.minOverallScore,
    samplePercentage := some p.samplePercentage }

/-- The all-keys-present patch of a full `EvaluationParamsState`. -/
def evalParamsToPatch (p : EvaluationParamsState) : EvaluationParamsPatch :=
  { stage1_answer_threshold := some p.stage1_answer_threshold,
    stage1_reasoning_threshold := some p.stage1_reasoning_threshold,
    stage2_answer_threshold := some p.stage2_answer_threshold,
    stage2_reasoning_threshold := some p.stage2_reasoning_threshold,
    evaluation_rounds := some p.evaluation_rounds }

/-- `JSON.parse(JSON.stringify(state))` for a `WorkflowState`
(`saveState` writes `JSON.stringify(this.state)`, theme.config.ts line 331):
required fields become present keys; `Option` fields pass through, since an
`undefined` value is dropped by stringify and stays a missing key after
parse; the stages object and its snapshots survive verbatim (their absent
`updatedAt`/`message` keys are dropped and read back as `undefined`, which
`StrVal.undef` models on both sides). -/
def stringifyState (s : WorkflowState) : ParsedState :=
  { flmm := some { processCompleted := some s.flmm.processCompleted,
                   projectId := s.flmm.projectId }
    qa := some { processCompleted := some s.qa.processCompleted,
                 taskId := s.qa.taskId, generateTaskId := s.qa.generateTaskId,
                 evaluateTaskId := s.qa.evaluateTaskId, step := s.qa.step,
                 params := some (qaParamsToPatch s.qa.params) }
    evaluation := some { workflowCompleted := some s.evaluation.workflowCompleted,
                         evaluationId := s.evaluation.evaluationId,
                         stages := some s.evaluation.stages,
                         params := some (evalParamsToPatch s.evaluation.params) } }

/-- Empty parsed `flmm` section (`parsed.flmm || \x7b\x7d`). -/
def emptyParsedFlmm : ParsedFlmm := {}

/-- Empty parsed `qa` section. -/
def emptyParsedQA : ParsedQA := {}

/-- Empty parsed `evaluation` section. -/
def emptyParsedEvaluation : ParsedEvaluation := {}

/-- Empty QA params patch. -/
def emptyQAParamsPatch : QAParamsPatch := {}

/-- Empty evaluation params patch. -/
def emptyEvaluationParamsPatch : EvaluationParamsPatch := {}

/-- The successful branch of `loadState` (theme.config.ts lines 286-310):
the parsed blob merged over the defaults, section by section. -/
def loadStateFromParsed (parsed : ParsedState) : WorkflowState :=
  let pf := parsed.flmm.getD emptyParsedFlmm
  let pq := parsed.qa.getD emptyParsedQA
  let pe := parsed.evaluation.getD emptyParsedEvaluation
  { flmm := { processCompleted := pf.processCompleted.getD defaultState.flmm.processCompleted
              projectId := spreadKey pf.projectId defaultState.flmm.projectId }
    qa := { processCompleted := pq.processCompleted.getD defaultState.qa.processCompleted
            taskId := spreadKey pq.taskId defaultState.qa.taskId
            generateTaskId := spreadKey pq.generateTaskId defaultState.qa.generateTaskId
            evaluateTaskId := spreadKey pq.evaluateTaskId defaultState.qa.evaluateTaskId
            step := spreadKey pq.step defaultState.qa.step
            params := mergeQAParams defaultQAParams (pq.params.getD emptyQAParamsPatch) }
    evaluation :=
      { workflowCompleted := pe.workflowCompleted.getD defaultState.evaluation.workflowCompleted
        evaluationId := spreadKey pe.evaluationId defaultState.evaluation.evaluationId
        stages := pe.stages.getD createDefaultEvaluationStages
        params := mergeEvaluationParams defaultEvaluationParams
                    (pe.params.getD emptyEvaluationParamsPatch) } }

/-- The state built after the catch / no-saved-value path of `loadState`
(theme.config.ts lines 315-324). -/
def fallbackState : WorkflowState :=
  { flmm := defaultState.flmm
    qa := defaultState.qa
    evaluation := { workflowCompleted := false, evaluationId := none,
                    stages := createDefaultEvaluationStages,
                    params := defaultEvaluationParams } }

/-- The environment outcomes `loadState` can face: no `localStorage`
(`hasStorage` false), no saved value (`getItem` returned null), a thrown
error (storage access, `JSON.parse`, or field access on a non-object parse
result), or a successfully parsed blob. -/
inductive LoadInput where
  | noStorage
  | absent
  | failure
  | parsed (p : ParsedState)

/-- `loadState` (theme.config.ts lines 281-325). -/
def loadState : LoadInput → WorkflowState
  | .noStorage => defaultState
  | .absent => fallbackState
  | .failure => fallbackState
  | .parsed p => loadStateFromParsed p

/-- The claim's notion of the round-trip result, modelled from the spec's
words: every key present in the stored blob keeps its value, and any key
missing from it takes its value from the hard-coded default state.  For a
stored `JSON.stringify` of a state `s`, the keys missing from the blob are
exactly the `none`-valued optional keys of `s`, so default-filling is
`spreadKey` against `defaultState` on those keys; required fields and the
full `params`/`stages` objects are always present in the blob. -/
def claimDefaultFill (s : WorkflowState) : WorkflowState :=
  { flmm := { processCompleted := s.flmm.processCompleted
              projectId := spreadKey s.flmm.projectId defaultState.flmm.projectId }
    qa := { processCompleted := s.qa.processCompleted
            taskId := spreadKey s.qa.taskId defaultState.qa.taskId
            generateTaskId := spreadKey s.qa.generateTaskId defaultState.qa.generateTaskId
            evaluateTaskId := spreadKey s.qa.evaluateTaskId defaultState.qa.evaluateTaskId
            step := spreadKey s.qa.step defaultState.qa.step
            params := s.qa.params }
    evaluation := { workflowCompleted := s.evaluation.workflowCompleted
                    evaluationId := spreadKey s.evaluation.evaluationId
                                      defaultState.evaluation.evaluationId
                    stages := s.evaluation.stages
                    params := s.evaluation.params } }

/-- C1: for every workflow state reachable by the store's public operations,
saving it (`saveState` writes `JSON.stringify` of the state under the
storage key) and then reloading it (`loadState` parses the stored JSON and
merges it over the defaults) yields the state with every key present in the
blob unchanged and every missing key default-filled (concretely, the only
optional key with a non-missing default is `qa.step`, whose default is 0). -/
theorem save_load_roundtrip (s : WorkflowState) (h : ReachableState s) :
    loadState (.parsed (stringifyState s)) = claimDefaultFill s := by
  clear h
  rcases s with ⟨⟨fpc, fpid⟩, ⟨qpc, qtid, qgid, qeid, qstep, qparams⟩,
    ⟨ewc, eid, estages, eparams⟩⟩
  rfl

/-- Witness for C1: the default state is reachable (by the empty operation
sequence) and its round-trip evaluates to its default-filled form. -/
theorem save_load_roundtrip_witness :
    ReachableState defaultState ∧
      loadState (.parsed (stringifyState defaultState)) = claimDefaultFill defaultState :=
  ⟨⟨[], rfl⟩, save_load_roundtrip defaultState ⟨[], rfl⟩⟩

/-- C4: when reading or parsing the persisted local state fails, `loadState`
returns the hard-coded default state: all completion flags false, default QA
and evaluation parameters, and the default four evaluation stages. -/
theorem loadState_failure_defaults :
    loadState .failure = defaultState ∧
      (loadState .failure).flmm.processCompleted = false ∧
      (loadState .failure).qa.processCompleted = false ∧
      (loadState .failure).evaluation.workflowCompleted = false ∧
      (loadState .failure).qa.params = defaultQAParams ∧
      (loadState .failure).evaluation.params = defaultEvaluationParams ∧
      (loadState .failure).evaluation.stages = createDefaultEvaluationStages :=
  ⟨rfl, rfl, rfl, rfl, rfl, rfl, rfl⟩

-- ============================================================
-- C7: every mutation persists the whole state under the single key
-- ============================================================

/-- Browser `localStorage`, restricted to values of the persisted blob
shape: an association list from keys to stored JSON blobs. -/
abbrev Storage := List (String × ParsedState)

/-- `window.localStorage.setItem(key, value)`. -/
def setItem (st : Storage) (k : String) (v : ParsedState) : Storage :=
  setAssoc st k v

/-- The write performed by `saveState` (theme.config.ts lines 328-337):
`localStorage.setItem(STORAGE_KEY, JSON.stringify(this.state))`. -/
def saveStateWrite (s : WorkflowState) : String × ParsedState :=
  (STORAGE_KEY, stringifyState s)

/-- Running a sequence of mutating store methods: each one updates the state
and then calls `saveState`, which performs its single `setItem` write. -/
def runStoreOps : WorkflowState → Storage → List StoreOp → WorkflowState × Storage
  | s, st, [] => (s, st)
  | s, st, op :: rest =>
      let s2 := applyOp s op
      runStoreOps s2 (setItem st (saveStateWrite s2).1 (saveStateWrite s2).2) rest

/-- The top-level keys present in a stored blob. -/
def presentTopLevelKeys (p : ParsedState) : List String :=
  (if p.flmm.isSome then ["flmm"] else []) ++
    (if p.qa.isSome then ["qa"] else []) ++
      (if p.evaluation.isSome then ["evaluation"] else [])

theorem runStoreOps_single_key (ops : List StoreOp) :
    ∀ (s : WorkflowState) (v : ParsedState),
      (runStoreOps s [(STORAGE_KEY, v)] ops).2 =
        [(STORAGE_KEY, stringifyState (runStoreOps s [(STORAGE_KEY, v)] ops).1)] ∨
      (ops = [] ∧ (runStoreOps s [(STORAGE_KEY, v)] ops).2 = [(STORAGE_KEY, v)]) := by
  induction ops with
  | nil => intro s v; exact Or.inr ⟨rfl, rfl⟩
  | cons op rest ih =>
      intro s v
      have hstep : runStoreOps s [(STORAGE_KEY, v)] (op :: rest) =
          runStoreOps (applyOp s op)
            [(STORAGE_KEY, stringifyState (applyOp s op))] rest := by
        simp [runStoreOps, setItem, setAssoc, saveStateWrite]
      rw [hstep]
      rcases ih (applyOp s op) (stringifyState (applyOp s op)) with h | ⟨hnil, h⟩
      · exact Or.inl h
      · subst hnil
        exact Or.inl h

/-- C7: every state mutation of the workflow store persists the entire state
as a single JSON blob under the one browser-storage key
`llm_eval_workflow_state` (last write wins: after any non-empty operation
sequence the storage holds exactly one entry, whose value is the stringified
current state), and that blob always has exactly the three top-level
sections `flmm`, `qa`, `evaluation`. -/
theorem single_key_persistence (ops : List StoreOp) (h : ops ≠ []) :
    STORAGE_KEY = "llm_eval_workflow_state" ∧
      (runStoreOps defaultState [] ops).2 =
        [(STORAGE_KEY, stringifyState (runStoreOps defaultState [] ops).1)] ∧
      ∀ s : WorkflowState,
        presentTopLevelKeys (stringifyState s) = ["flmm", "qa", "evaluation"] := by
  refine ⟨rfl, ?_, fun s => rfl⟩
  cases ops with
  | nil => exact absurd rfl h
  | cons op rest =>
      have hstep : runStoreOps defaultState [] (op :: rest) =
          runStoreOps (applyOp defaultState op)
            [(STORAGE_KEY, stringifyState (applyOp defaultState op))] rest := by
        simp [runStoreOps, setItem, setAssoc, saveStateWrite]
      rw [hstep]
      rcases runStoreOps_single_key rest (applyOp defaultState op)
          (stringifyState (applyOp defaultState op)) with hh | ⟨hnil, hh⟩
      · exact hh
      · subst hnil
        exact hh

/-- Witness for C7: a concrete one-operation run writes the single entry. -/
theorem single_key_persistence_witness :
    ([StoreOp.resetAll] ≠ ([] : List StoreOp)) ∧
      (runStoreOps defaultState [] [StoreOp.resetAll]).2 =
        [(STORAGE_KEY, stringifyState (runStoreOps defaultState [] [StoreOp.resetAll]).1)] :=
  ⟨by simp, (single_key_persistence [StoreOp.resetAll] (by simp)).2.1⟩

-- ============================================================
-- C9: the evaluation stages object always has exactly the four keys
-- ============================================================

/-- The four valid stage keys, in the insertion order of
`createDefaultEvaluationStages`. -/
def validStageKeys : List String := ["init", "stage1", "stage2", "result"]

theorem toStageKey_mem (k : String) (sk : EvaluationStageKey)
    (h : toStageKey k = some sk) : k ∈ validStageKeys := by
  unfold toStageKey at h
  unfold validStageKeys
  split_ifs at h with h1 h2 h3 h4
  · subst h1; simp
  · subst h2; simp
  · subst h3; simp
  · subst h4; simp

theorem bulkStep_keys (m : StagesMap) (e : String × StageSnapshotPatch)
    (hm : assocKeys m = validStageKeys) : assocKeys (bulkStep m e) = validStageKeys := by
  unfold bulkStep
  cases htk : toStageKey e.1 with
  | none => exact hm
  | some sk =>
      have hmem : e.1 ∈ assocKeys m := by
        rw [hm]; exact toStageKey_mem e.1 sk htk
      rw [assocKeys_setAssoc_of_mem _ _ _ hmem]
      exact hm

theorem foldl_bulkStep_keys (entries : List (String × StageSnapshotPatch)) :
    ∀ m : StagesMap, assocKeys m = validStageKeys →
      assocKeys (entries.foldl bulkStep m) = validStageKeys := by
  induction entries with
  | nil => intro m hm; exact hm
  | cons e rest ih =>
      intro m hm
      exact ih (bulkStep m e) (bulkStep_keys m e hm)

theorem applyOp_stages_keys (s : WorkflowState) (op : StoreOp)
    (h : assocKeys s.evaluation.stages = validStageKeys) :
    assocKeys (applyOp s op).evaluation.stages = validStageKeys := by
  cases op with
  | setFLMMProcessCompleted pid => exact h
  | resetFLMM => exact h
  | setQAProcessCompleted tid => exact h
  | setQAGenerateTaskId tid => exact h
  | setQAEvaluateTaskId tid => exact h
  | setQAStep n => exact h
  | saveQAParams p => exact h
  | resetQA => exact h
  | setEvaluationWorkflowCompleted eid => exact h
  | resetEvaluation => rfl
  | saveEvaluationParams p => exact h
  | updateEvaluationStage k snap =>
      have hmem : stageKeyStr k ∈ assocKeys s.evaluation.stages := by
        rw [h]; cases k <;> simp [stageKeyStr, validStageKeys]
      show assocKeys (setAssoc s.evaluation.stages (stageKeyStr k) _) = _
      rw [assocKeys_setAssoc_of_mem _ _ _ hmem]
      exact h
  | bulkUpdateEvaluationStages entries =>
      exact foldl_bulkStep_keys entries s.evaluation.stages h
  | resetEvaluationStages => rfl
  | resetAll => rfl

theorem applyOps_stages_keys (ops : List StoreOp) :
    ∀ s : WorkflowState, assocKeys s.evaluation.stages = validStageKeys →
      assocKeys (applyOps s ops).evaluation.stages = validStageKeys := by
  induction ops with
  | nil => intro s hs; exact hs
  | cons op rest ih =>
      intro s hs
      exact ih (applyOp s op) (applyOp_stages_keys s op hs)

/-- C9: after any sequence of workflow-store operations starting from the
default state, `evaluation.stages` contains exactly the four keys `init`,
`stage1`, `stage2`, `result` (in that order), and `bulkUpdateEvaluationStages`
silently ignores every entry whose key is outside this set, so
backend-supplied stage keys can never add a fifth stage. -/
theorem stages_exactly_four_keys :
    (∀ ops : List StoreOp,
        assocKeys (applyOps defaultState ops).evaluation.stages =
          ["init", "stage1", "stage2", "result"]) ∧
      ∀ (m : StagesMap) (k : String) (p : StageSnapshotPatch),
        toStageKey k = none → bulkStep m (k, p) = m := by
  constructor
  · intro ops
    exact applyOps_stages_keys ops defaultState rfl
  · intro m k p hk
    unfold bulkStep
    rw [hk]

/-- Witness for C9: a bulk update carrying a fifth key leaves the key set
untouched, and an entry with an invalid key is a no-op. -/
theorem stages_exactly_four_keys_witness :
    assocKeys (applyOps defaultState
        [StoreOp.bulkUpdateEvaluationStages [("extra", {})]]).evaluation.stages =
      ["init", "stage1", "stage2", "result"] ∧
    bulkStep createDefaultEvaluationStages ("extra", {}) = createDefaultEvaluationStages :=
  ⟨stages_exactly_four_keys.1 [StoreOp.bulkUpdateEvaluationStages [("extra", {})]],
   stages_exactly_four_keys.2 createDefaultEvaluationStages "extra" {} rfl⟩

-- ============================================================
-- C3: progress rendering in renderStep3 (src/unnamed/part_005)
-- ============================================================

/-- The five backend steps of the `stageMap` object
(part_005 lines 977-983), in their stage order. -/
inductive EvalStep where
  | stage1_infer | stage1_eval | stage2_infer | stage2_eval | analysis
deriving DecidableEq, Repr

/-- `stageMap[taskStatus.step_progress.current_step]` (part_005 lines
977-984): 1 to 5 along the stage order. -/
def stageNumber : EvalStep → ℕ
  | .stage1_infer => 1
  | .stage1_eval => 2
  | .stage2_infer => 3
  | .stage2_eval => 4
  | .analysis => 5

/-- JS `x || 1` on a non-negative count (`current_file || 1`,
`total_files || 1`, part_005 lines 985-986). -/
def orOne (n : ℕ) : ℕ := if n = 0 then 1 else n

theorem orOne_pos (n : ℕ) : 0 < orOne n := by
  unfold orOne; split <;> omega

theorem orOne_mono {a b : ℕ} (h : a ≤ b) : orOne a ≤ orOne b := by
  unfold orOne; split <;> split <;> omega

/-- `Math.round`: round half up, `⌊x + 1/2⌋`. -/
def jsRound (q : ℚ) : ℤ := ⌊q + 1 / 2⌋

theorem jsRound_mono {q r : ℚ} (h : q ≤ r) : jsRound q ≤ jsRound r :=
  Int.floor_le_floor (by linarith)

/-- The unrounded overall stage progress (part_005 lines 1046-1050):
`((currentStageNum - 1) + step_progress_percent / 100) / 5 * 100`. -/
def overallStageProgressQ (step : EvalStep) (pct : ℚ) : ℚ :=
  (((stageNumber step : ℚ) - 1) + pct / 100) / 5 * 100

/-- The rendered overall stage percentage: `Math.round(overallProgress)`
(part_005 line 1086). -/
def overallStageProgress (step : EvalStep) (pct : ℚ) : ℤ :=
  jsRound (overallStageProgressQ step pct)

/-- The unrounded overall file progress (part_005 lines 984-996):
`((current_file - 1) + ((currentStageNum - 1) + pct / 100) / 5) / total_files
* 100`, with the `|| 1` fallbacks on the file counters. -/
def overallFileProgressQ (totalFiles currentFile : ℕ) (step : EvalStep) (pct : ℚ) : ℚ :=
  (((orOne currentFile : ℚ) - 1) + (((stageNumber step : ℚ) - 1) + pct / 100) / 5) /
      (orOne totalFiles : ℚ) * 100

/-- The rendered overall file percentage: `Math.round(overallFileProgress)`
(part_005 line 1015). -/
def overallFileProgress (totalFiles currentFile : ℕ) (step : EvalStep) (pct : ℚ) : ℤ :=
  jsRound (overallFileProgressQ totalFiles currentFile step pct)

/-- C3: within one task lifecycle (fixed `total_files`), for every pair of
backend status reports where the current file index, the stage order and the
step progress percentage do not decrease, the two rendered percentages do
not decrease either. -/
theorem progress_monotone (tf f f' : ℕ) (st st' : EvalStep) (p p' : ℚ)
    (hf : f ≤ f') (hs : stageNumber st ≤ stageNumber st') (hp : p ≤ p') :
    overallFileProgress tf f st p ≤ overallFileProgress tf f' st' p' ∧
      overallStageProgress st p ≤ overallStageProgress st' p' := by
  have hsq : (stageNumber st : ℚ) ≤ (stageNumber st' : ℚ) := by exact_mod_cast hs
  have hfq : (orOne f : ℚ) ≤ (orOne f' : ℚ) := by exact_mod_cast orOne_mono hf
  have hdpos : (0 : ℚ) < (orOne tf : ℚ) := by exact_mod_cast orOne_pos tf
  constructor
  · apply jsRound_mono
    unfold overallFileProgressQ
    have h1 : ((orOne f : ℚ) - 1) + (((stageNumber st : ℚ) - 1) + p / 100) / 5 ≤
        ((orOne f' : ℚ) - 1) + (((stageNumber st' : ℚ) - 1) + p' / 100) / 5 := by
      linarith
    apply mul_le_mul_of_nonneg_right _ (by norm_num : (0 : ℚ) ≤ 100)
    rw [div_eq_mul_inv, div_eq_mul_inv]
    exact mul_le_mul_of_nonneg_right h1 (inv_nonneg.mpr hdpos.le)
  · apply jsRound_mono
    unfold overallStageProgressQ
    linarith

/-- Witness for C3: concrete reports of one lifecycle with two files, moving
from file 1 in the first stage at 0 percent to file 2 in the analysis stage
at 50 percent. -/
theorem progress_monotone_witness :
    (1 : ℕ) ≤ 2 ∧ stageNumber .stage1_infer ≤ stageNumber .analysis ∧ (0 : ℚ) ≤ 50 ∧
      (overallFileProgress 2 1 .stage1_infer 0 ≤ overallFileProgress 2 2 .analysis 50 ∧
        overallStageProgress .stage1_infer 0 ≤ overallStageProgress .analysis 50) :=
  ⟨by norm_num, by decide, by norm_num,
    progress_monotone 2 1 2 .stage1_infer .analysis 0 50 (by norm_num) (by decide)
      (by norm_num)⟩

-- ============================================================
-- C5 / C8: evaluation status polling (src/unnamed/part_005, lines 280-338)
-- ============================================================

/-- `['completed', 'failed'].includes(status.status)` (part_005 lines
311, 314). -/
def isTerminalEvalStatus (st : String) : Bool :=
  st == "completed" || st == "failed"

/-- One `fetchStatus` report's effect on the polling timer (part_005 lines
311-321): on a terminal status with a live timer, the interval is cleared
and nulled; on a non-terminal status with a live timer, the interval is
reset to 1000 ms for `processing` and 4000 ms otherwise; with no live timer
nothing is scheduled.  The timer is `some interval` when live. -/
def pollStep (status : String) (timer : Option ℕ) : Option ℕ :=
  if isTerminalEvalStatus status && timer.isSome then none
  else if !isTerminalEvalStatus status && timer.isSome then
    some (if status == "processing" then 1000 else 4000)
  else timer

/-- The component state driving the polling effect (part_005 lines 87-88):
`workflowNotified` (`useState(false)`) and the interval ref
`pollingRef.current`, modelled as `some interval` while an interval is
live. -/
structure EvalPollingState where
  workflowNotified : Bool
  pollingRef : Option ℕ
deriving DecidableEq, Repr

/-- The state after the effect's first run with a task id (part_005 lines
327-331): `workflowNotified` still false, an initial 4000 ms interval. -/
def evalPollingInitialState : EvalPollingState :=
  { workflowNotified := false, pollingRef := some 4000 }

/-- Processing one backend status report in the polling lifecycle.  A
report is received only while the interval is live.  The `fetchStatus`
continuation sets `workflowNotified` on the first terminal report
(part_005 lines 300-309) and updates the timer (lines 311-321, `pollStep`).
`workflowNotified` is in the effect's dependency array (line 339) and the
other dependencies are stable (`taskId` fixed within the lifecycle, the
store callbacks memoised), so when it flips React re-runs the effect: the
cleanup finds the ref already nulled by the terminal branch, and the new
effect body (lines 327-331) calls `fetchStatus()` again and schedules a
fresh `setInterval(fetchStatus, 4000)`. -/
def evalPollingReport (s : EvalPollingState) (status : String) : EvalPollingState :=
  if s.pollingRef.isSome then
    let notified2 :=
      if isTerminalEvalStatus status && !s.workflowNotified then true
      else s.workflowNotified
    if notified2 != s.workflowNotified then
      { workflowNotified := notified2, pollingRef := some 4000 }
    else
      { workflowNotified := notified2, pollingRef := pollStep status s.pollingRef }
  else s

/-- Counterexample to C5 as stated: the first report with status
`completed`, arriving in the initial lifecycle state, does not end the
polling — `setWorkflowNotified(true)` re-runs the effect, which issues a
further fetch and schedules a fresh 4000 ms interval, so the timer is live
again rather than cleared. -/
theorem polling_restart_counterexample :
    (evalPollingReport evalPollingInitialState "completed").pollingRef = some 4000 ∧
      ¬ (evalPollingReport evalPollingInitialState "completed").pollingRef = none :=
  ⟨rfl, by decide⟩

/-- C5 (amended): while the reported status is non-terminal the polling
interval is status-dependent — 1000 ms for `processing`, 4000 ms for
`pending` and any other non-terminal status — and a `completed` or `failed`
report clears the interval timer; but the first terminal report also flips
`workflowNotified`, re-running the effect, which issues one more fetch and
schedules a fresh 4000 ms interval.  Once a terminal report arrives with
`workflowNotified` already set, the timer is cleared, the dependencies are
unchanged, and no further polls are scheduled: every subsequent report
sequence leaves the lifecycle state untouched. -/
theorem polling_interval_lifecycle (t : ℕ) (n : Bool) :
    evalPollingReport ⟨n, some t⟩ "processing" = ⟨n, some 1000⟩ ∧
      evalPollingReport ⟨n, some t⟩ "pending" = ⟨n, some 4000⟩ ∧
      (∀ s : String, isTerminalEvalStatus s = false → s ≠ "processing" →
        evalPollingReport ⟨n, some t⟩ s = ⟨n, some 4000⟩) ∧
      evalPollingReport ⟨false, some t⟩ "completed" = ⟨true, some 4000⟩ ∧
      evalPollingReport ⟨false, some t⟩ "failed" = ⟨true, some 4000⟩ ∧
      evalPollingReport ⟨true, some t⟩ "completed" = ⟨true, none⟩ ∧
      evalPollingReport ⟨true, some t⟩ "failed" = ⟨true, none⟩ ∧
      (∀ status : String, evalPollingReport ⟨n, none⟩ status = ⟨n, none⟩) ∧
      ∀ reports : List String,
        reports.foldl evalPollingReport ⟨n, none⟩ = ⟨n, none⟩ := by
  refine ⟨?_, ?_, ?_, rfl, rfl, rfl, rfl, fun status => rfl, ?_⟩
  · cases n <;> rfl
  · cases n <;> rfl
  · intro s hterm hproc
    have hb : (s == "processing") = false := by
      simpa using hproc
    simp [evalPollingReport, pollStep, hterm, hb]
  · intro reports
    induction reports with
    | nil => rfl
    | cons r rest ih =>
        have h0 : evalPollingReport ⟨n, none⟩ r = ⟨n, none⟩ := rfl
        simp only [List.foldl, h0]
        exact ih

/-- Witness for C5: concrete lifecycle states, including a non-terminal
status other than `processing` and `pending`, and the quiescent terminal
report. -/
theorem polling_interval_lifecycle_witness :
    isTerminalEvalStatus "queued" = false ∧
      evalPollingReport ⟨false, some 4000⟩ "queued" = ⟨false, some 4000⟩ ∧
      evalPollingReport ⟨true, some 4000⟩ "completed" = ⟨true, none⟩ :=
  ⟨rfl, (polling_interval_lifecycle 4000 false).2.2.1 "queued" rfl (by decide),
    (polling_interval_lifecycle 4000 true).2.2.2.2.2.1⟩

-- ============================================================
-- C6: the QA progress SSE stream (src/unnamed/part_006, lines 107-177)
-- ============================================================

/-- `interface FileProgress` (part_006 lines 33-38). -/
structure FileProgressData where
  current_file : ℚ
  total_files : ℚ
  current_filename : String
  file_progress_percent : ℚ
deriving DecidableEq, Repr

/-- `interface StepProgress` (part_006 lines 40-45). -/
structure StepProgressData where
  current_step : String
  step_progress_percent : ℚ
  current_question : ℚ
  total_questions : ℚ
deriving DecidableEq, Repr

/-- `interface Timing` (part_006 lines 47-51). -/
structure TimingData where
  elapsed_seconds : ℚ
  estimated_remaining_seconds : Option ℚ
  estimated_total_seconds : Option ℚ
deriving DecidableEq, Repr

/-- `interface ProgressData` (part_006 lines 53-61). -/
structure QAProgressData where
  status : String
  progress : ℚ
  current_step : String
  message : String
  file_progress : Option FileProgressData
  step_progress : Option StepProgressData
  timing : Option TimingData
deriving DecidableEq, Repr

/-- `interface LogEntry` (part_006 lines 63-66). -/
structure LogEntry where
  timestamp : String
  message : String
deriving DecidableEq, Repr

/-- `interface Artifact` (part_006 lines 68-73). -/
structure Artifact where
  type : String
  path : String
  filename : String
  size_bytes : ℚ
deriving DecidableEq, Repr

/-- `interface Summary` (part_006 lines 75-82). -/
structure Summary where
  total_time_seconds : ℚ
  result_file : String
  total_files : Option ℚ
  success_count : Option ℚ
  fail_count : Option ℚ
  artifacts : Option (List Artifact)
deriving DecidableEq, Repr

/-- The payload of a `complete` event, as used by its handler (part_006
lines 132-148): `data.status`, `data.summary`, `data.message`. -/
structure CompleteData where
  status : String
  summary : Option Summary
  message : Option String
deriving DecidableEq, Repr

/-- The payload of an `error` event with data (part_006 lines 151-162):
`errorData.error`. -/
structure SSEErrorData where
  error : String
deriving DecidableEq, Repr

/-- An incoming occurrence on the QA progress stream.  Each data-carrying
event wraps the result of `JSON.parse(e.data)`: `none` means the parse
threw (caught by the handler's `try`).  For `error` events the outer option
is whether `e.data` was present at all; `connectionError` is
`eventSource.onerror`. -/
inductive QASSEEvent where
  | progress (parse : Option QAProgressData)
  | log (parse : Option LogEntry)
  | complete (parse : Option CompleteData)
  | errorEvent (payload : Option (Option SSEErrorData))
  | connectionError
deriving DecidableEq, Repr

/-- The component state touched by the SSE handlers (part_006 lines 89-92),
plus whether `eventSource.close()` has been called. -/
structure QAStreamState where
  progressData : Option QAProgressData
  logs : List LogEntry
  summary : Option Summary
  isProcessing : Bool
  sourceClosed : Bool
deriving DecidableEq, Repr

/-- The initial state of the effect: `useState(true)` for `isProcessing`,
empty progress/log/summary state, stream open. -/
def qaStreamInitialState : QAStreamState :=
  { progressData := none, logs := [], summary := none,
    isProcessing := true, sourceClosed := false }

/-- The event handlers of the SSE effect (part_006 lines 114-168).  Note the
`complete` handler parses `e.data` as the first statement of its `try`
block, so a parse failure skips `setIsProcessing(false)` and
`eventSource.close()` entirely; the `error` handler parses inside an inner
`try` and closes unconditionally afterwards. -/
def handleQASSEEvent (s : QAStreamState) : QASSEEvent → QAStreamState
  | .progress none => s
  | .progress (some d) => { s with progressData := some d }
  | .log none => s
  | .log (some l) => { s with logs := s.logs ++ [l] }
  | .complete none => s
  | .complete (some d) =>
      let s1 := { s with isProcessing := false }
      let s2 := if d.status == "completed" && d.summary.isSome then
          { s1 with summary := d.summary }
        else s1
      { s2 with sourceClosed := true }
  | .errorEvent _ => { s with isProcessing := false, sourceClosed := true }
  | .connectionError => { s with isProcessing := false, sourceClosed := true }

/-- Counterexample to C6 as stated: a `complete` event whose data fails to
parse as JSON does not close the EventSource and leaves `isProcessing`
true, because the `complete` handler runs `JSON.parse(e.data)` before
`setIsProcessing(false)` and `eventSource.close()` inside the same `try`
block. -/
theorem qa_sse_complete_counterexample :
    (handleQASSEEvent qaStreamInitialState (.complete none)).sourceClosed = false ∧
      (handleQASSEEvent qaStreamInitialState (.complete none)).isProcessing = true :=
  ⟨rfl, rfl⟩

/-- C6 (amended): the stream is consumed until a terminal event arrives —
on a `complete` event whose data parses as JSON, and on any `error` event or
connection error, the EventSource is closed and `isProcessing` is set to
false; `progress` and `log` events update state (when their data parses) and
never close the stream; a `complete` event whose data fails to parse leaves
the state unchanged; no other event closes the subscription. -/
theorem qa_sse_terminal_events (s : QAStreamState) (d : CompleteData)
    (pd : Option QAProgressData) (ld : Option LogEntry)
    (ed : Option (Option SSEErrorData)) (p : QAProgressData) (l : LogEntry) :
    (handleQASSEEvent s (.complete (some d))).sourceClosed = true ∧
      (handleQASSEEvent s (.complete (some d))).isProcessing = false ∧
      (handleQASSEEvent s (.errorEvent ed)).sourceClosed = true ∧
      (handleQASSEEvent s (.errorEvent ed)).isProcessing = false ∧
      (handleQASSEEvent s .connectionError).sourceClosed = true ∧
      (handleQASSEEvent s .connectionError).isProcessing = false ∧
      (handleQASSEEvent s (.progress pd)).sourceClosed = s.sourceClosed ∧
      (handleQASSEEvent s (.progress pd)).isProcessing = s.isProcessing ∧
      (handleQASSEEvent s (.log ld)).sourceClosed = s.sourceClosed ∧
      (handleQASSEEvent s (.log ld)).isProcessing = s.isProcessing ∧
      handleQASSEEvent s (.complete none) = s ∧
      (handleQASSEEvent s (.progress (some p))).progressData = some p ∧
      (handleQASSEEvent s (.log (some l))).logs = s.logs ++ [l] := by
  refine ⟨rfl, ?_, rfl, rfl, rfl, rfl, ?_, ?_, ?_, ?_, rfl, rfl, rfl⟩
  · show (handleQASSEEvent s (.complete (some d))).isProcessing = false
    simp only [handleQASSEEvent]
    split <;> rfl
  · cases pd <;> rfl
  · cases pd <;> rfl
  · cases ld <;> rfl
  · cases ld <;> rfl

-- ============================================================
-- C8: implicit cancellation on unmount
-- ============================================================

/-- The externally visible actions a teardown can perform. -/
inductive TeardownEffect where
  | clearTimer (id : ℕ)
  | closeEventSource
  | httpRequest (method : String) (url : String)
deriving DecidableEq, Repr

/-- Whether a teardown effect is an HTTP call to the backend. -/
def TeardownEffect.isHttpRequest : TeardownEffect → Bool
  | .httpRequest _ _ => true
  | _ => false

/-- The cleanup function of the evaluation polling effect (part_005 lines
333-338): when `pollingRef.current` is live it calls `clearInterval` and
nulls the ref; it returns the new ref value and the effects performed. -/
def evalPollingCleanup (pollingRef : Option ℕ) : Option ℕ × List TeardownEffect :=
  match pollingRef with
  | some id => (none, [.clearTimer id])
  | none => (pollingRef, [])

/-- The cleanup function of the QA SSE effect (part_006 lines 172-176):
when `eventSourceRef.current` is set it calls `close()` on it. -/
def qaStreamCleanup (eventSourceRef : Option Unit) : List TeardownEffect :=
  match eventSourceRef with
  | some _ => [.closeEventSource]
  | none => []

/-- C8: unmounting the evaluation progress view clears the polling timer
(the ref ends null, and a live timer is cleared), unmounting the QA status
view closes the EventSource, and neither teardown performs any HTTP
request. -/
theorem implicit_cancellation (r : Option ℕ) (es : Option Unit) :
    (evalPollingCleanup r).1 = none ∧
      (∀ id : ℕ, evalPollingCleanup (some id) = (none, [.clearTimer id])) ∧
      qaStreamCleanup (some ()) = [.closeEventSource] ∧
      (evalPollingCleanup r).2.all (fun e => !e.isHttpRequest) = true ∧
      (qaStreamCleanup es).all (fun e => !e.isHttpRequest) = true := by
  refine ⟨?_, fun id => rfl, rfl, ?_, ?_⟩
  · cases r <;> rfl
  · cases r <;> rfl
  · cases es <;> rfl

-- ============================================================
-- C10: qaService.generateQA query-parameter defaults
-- (src/frontend/src/services/qaService.ts, lines 22-68)
-- ============================================================

/-- The `options` argument of `qaService.generateQA` (qaService.ts lines
24-38).  Every field the body guards with `??` is modelled as optional,
matching the runtime behaviour of the nullish-coalescing fallbacks;
`useSuggested` and `includeReason` are used without a fallback. -/
structure GenerateQAOptions where
  numPairs : Option Int
  useSuggested : Bool
  suggestQACount : Option Bool
  includeReason : Bool
  minDensityScore : Option Int
  minQualityScore : Option Int
  skipExtract : Option Bool
  skipEvaluate : Option Bool
  skipQA : Option Bool
  skipQAEvaluate : Option Bool
  minFactualScore : Option Int
  minOverallScore : Option Int
  samplePercentage : Option Int
deriving DecidableEq, Repr

/-- JS `String(b)` for a boolean. -/
def jsStringOfBool (b : Bool) : String := if b then "true" else "false"

/-- JS `String(n)` for an integral number. -/
def jsStringOfInt (n : Int) : String := toString n

/-- The `URLSearchParams` built by `generateQA` (qaService.ts lines 46-62),
as the ordered key/value list of the outgoing query string, including
`suggestQaCount = options.suggestQACount ?? options.useSuggested`. -/
def generateQAQueryParams (o : GenerateQAOptions) : List (String × String) :=
  [("num_pairs_per_section", jsStringOfInt (o.numPairs.getD 5)),
   ("use_suggested_count", jsStringOfBool o.useSuggested),
   ("include_reason", jsStringOfBool o.includeReason),
   ("suggest_qa_count", jsStringOfBool (o.suggestQACount.getD o.useSuggested)),
   ("min_density_score", jsStringOfInt (o.minDensityScore.getD 5)),
   ("min_quality_score", jsStringOfInt (o.minQualityScore.getD 5)),
   ("skip_extract", jsStringOfBool (o.skipExtract.getD false)),
   ("skip_evaluate", jsStringOfBool (o.skipEvaluate.getD false)),
   ("skip_qa", jsStringOfBool (o.skipQA.getD false)),
   ("skip_qa_evaluate", jsStringOfBool (o.skipQAEvaluate.getD false)),
   ("min_factual_score", jsStringOfInt (o.minFactualScore.getD 7)),
   ("min_overall_score", jsStringOfInt (o.minOverallScore.getD 7)),
   ("qa_sample_percentage", jsStringOfInt (o.samplePercentage.getD 100))]

/-- C10: for every call to `qaService.generateQA`, omitted options are
filled with fixed defaults in the outgoing query string — `suggest_qa_count`
equals `options.useSuggested` whenever `options.suggestQACount` is
undefined, `num_pairs_per_section` defaults to 5, `min_density_score` to 5,
`min_quality_score` to 5, `min_factual_score` to 7, `min_overall_score` to
7, `qa_sample_percentage` to 100, and all four skip flags to false. -/
theorem generateQA_defaults (o : GenerateQAOptions) :
    (o.suggestQACount = none →
        lookupAssoc (generateQAQueryParams o) "suggest_qa_count" =
          some (jsStringOfBool o.useSuggested)) ∧
      (o.numPairs = none →
        lookupAssoc (generateQAQueryParams o) "num_pairs_per_section" = some "5") ∧
      (o.minDensityScore = none →
        lookupAssoc (generateQAQueryParams o) "min_density_score" = some "5") ∧
      (o.minQualityScore = none →
        lookupAssoc (generateQAQueryParams o) "min_quality_score" = some "5") ∧
      (o.minFactualScore = none →
        lookupAssoc (generateQAQueryParams o) "min_factual_score" = some "7") ∧
      (o.minOverallScore = none →
        lookupAssoc (generateQAQueryParams o) "min_overall_score" = some "7") ∧
      (o.samplePercentage = none →
        lookupAssoc (generateQAQueryParams o) "qa_sample_percentage" = some "100") ∧
      (o.skipExtract = none →
        lookupAssoc (generateQAQueryParams o) "skip_extract" = some "false") ∧
      (o.skipEvaluate = none →
        lookupAssoc (generateQAQueryParams o) "skip_evaluate" = some "false") ∧
      (o.skipQA = none →
        lookupAssoc (generateQAQueryParams o) "skip_qa" = some "false") ∧
      (o.skipQAEvaluate = none →
        lookupAssoc (generateQAQueryParams o) "skip_qa_evaluate" = some "false") := by
  refine ⟨?_, ?_, ?_, ?_, ?_, ?_, ?_, ?_, ?_, ?_, ?_⟩ <;>
    (intro h; unfold generateQAQueryParams; rw [h]; rfl)

/-- Witness for C10: the call with every optional field omitted and
`useSuggested` true sends `suggest_qa_count=true`. -/
theorem generateQA_defaults_witness :
    (GenerateQAOptions.mk none true none true none none none none none none
        none none none).suggestQACount = none ∧
      lookupAssoc
          (generateQAQueryParams
            (GenerateQAOptions.mk none true none true none none none none none
              none none none none)) "suggest_qa_count" = some "true" :=
  ⟨rfl,
    (generateQA_defaults
        (GenerateQAOptions.mk none true none true none none none none none none
          none none none)).1 rfl⟩

end LlmEval
